import Mathlib

/-!
Ren SDK native example driver (examples/native/windows/main.c).

The file embeds the one function of the repository, main, which drives the
Ren client SDK through its C interface.  The SDK itself is an external
library: it is taken as a parameter (an arbitrary state machine answering
each call), and every call that main makes, together with every
printf/fprintf, is recorded in a trace.  The properties proved below are
properties of that trace and of the exit status, for every SDK.
-/

namespace RenSdk

/-! Data model -/

/-- A C pointer value; `0` is the null pointer. -/
abbrev Ptr := Nat

/-- Modelled from the spec: the result envelope `RenResult` is declared in
`ren_sdk.h`, which is not among the sources.  `main` reads its two fields:
`code` (an `int`, only ever compared with `0`, so any integer stands for it)
and `message` (a `char*`, possibly null). -/
structure RenResult where
  code : Int
  message : Ptr
deriving DecidableEq

/-- The two output streams `main` writes to. -/
inductive Stream where
  | stdout
  | stderr
deriving DecidableEq

/-- A `char*` argument given to a `%s` conversion: either a string that lives
at an address handed out by the SDK, or a string literal of the program. -/
inductive CStr where
  | heap (p : Ptr)
  | literal (s : String)
deriving DecidableEq

/-- One observable step of a run: a call into the SDK (with its arguments and,
where it has one, the value it returned) or a formatted print. -/
inductive Event where
  | client_new (base_url : String) (ret : Ptr)
  | login (client : Ptr) (username password : String) (flags : Int) (ret : RenResult)
  | get_me (client : Ptr) (ret : Ptr)
  | get_chats (client : Ptr) (ret : Ptr)
  | generate_keypair (ret : Ptr)
  | generate_salt (ret : Ptr)
  | free_string (s : Ptr)
  | client_free (client : Ptr)
  | print (stream : Stream) (format : String) (args : List CStr)
deriving DecidableEq

/-- Modelled from the spec: the seven SDK operations and the string release
operation are declared in `ren_sdk.h` and implemented in the `ren_sdk`
library, neither of which is among the sources.  The library is an arbitrary
deterministic state machine over a state `σ`: each operation reads its
arguments and the current state, and yields its return value and the next
state.  Nothing is assumed about the values it returns. -/
structure Sdk (σ : Type) where
  client_new : String → σ → Ptr × σ
  login : Ptr → String → String → Int → σ → RenResult × σ
  get_me : Ptr → σ → Ptr × σ
  get_chats : Ptr → σ → Ptr × σ
  generate_keypair : σ → Ptr × σ
  generate_salt : σ → Ptr × σ
  free_string : Ptr → σ → σ
  client_free : Ptr → σ → σ

/-- The state threaded through `main`: the state of the library and the
events observed so far, oldest first. -/
structure World (σ : Type) where
  lib : σ
  trace : List Event

variable {σ : Type}

/-! The calls made by main -/

/-- Call `fprintf(stream, format, args...)`. -/
def fprintf (stream : Stream) (format : String) (args : List CStr) (w : World σ) : World σ :=
  ⟨w.lib, w.trace ++ [Event.print stream format args]⟩

/-- Call `printf(format, args...)`, that is `fprintf(stdout, format, args...)`. -/
def printf (format : String) (args : List CStr) (w : World σ) : World σ :=
  fprintf Stream.stdout format args w

/-- Call `ren_sdk_client_new(base_url)`. -/
def ren_sdk_client_new (sdk : Sdk σ) (base_url : String) (w : World σ) : Ptr × World σ :=
  let r := sdk.client_new base_url w.lib
  (r.1, ⟨r.2, w.trace ++ [Event.client_new base_url r.1]⟩)

/-- Call `ren_sdk_login(client, username, password, flags)`. -/
def ren_sdk_login (sdk : Sdk σ) (client : Ptr) (username password : String) (flags : Int)
    (w : World σ) : RenResult × World σ :=
  let r := sdk.login client username password flags w.lib
  (r.1, ⟨r.2, w.trace ++ [Event.login client username password flags r.1]⟩)

/-- Call `ren_sdk_get_me(client)`. -/
def ren_sdk_get_me (sdk : Sdk σ) (client : Ptr) (w : World σ) : Ptr × World σ :=
  let r := sdk.get_me client w.lib
  (r.1, ⟨r.2, w.trace ++ [Event.get_me client r.1]⟩)

/-- Call `ren_sdk_get_chats(client)`. -/
def ren_sdk_get_chats (sdk : Sdk σ) (client : Ptr) (w : World σ) : Ptr × World σ :=
  let r := sdk.get_chats client w.lib
  (r.1, ⟨r.2, w.trace ++ [Event.get_chats client r.1]⟩)

/-- Call `ren_sdk_generate_keypair()`. -/
def ren_sdk_generate_keypair (sdk : Sdk σ) (w : World σ) : Ptr × World σ :=
  let r := sdk.generate_keypair w.lib
  (r.1, ⟨r.2, w.trace ++ [Event.generate_keypair r.1]⟩)

/-- Call `ren_sdk_generate_salt()`. -/
def ren_sdk_generate_salt (sdk : Sdk σ) (w : World σ) : Ptr × World σ :=
  let r := sdk.generate_salt w.lib
  (r.1, ⟨r.2, w.trace ++ [Event.generate_salt r.1]⟩)

/-- Call `ren_sdk_free_string(s)`. -/
def ren_sdk_free_string (sdk : Sdk σ) (s : Ptr) (w : World σ) : World σ :=
  ⟨sdk.free_string s w.lib, w.trace ++ [Event.free_string s]⟩

/-- Call `ren_sdk_client_free(client)`. -/
def ren_sdk_client_free (sdk : Sdk σ) (client : Ptr) (w : World σ) : World σ :=
  ⟨sdk.client_free client w.lib, w.trace ++ [Event.client_free client]⟩

/-! The program -/

/-- The function `main` of `main.c`, statement by statement.  The result is the
exit status and the final world.  C truth tests on pointers are comparisons
with `0`: `!client` is `client = 0` and `if (p)` is `p ≠ 0`. -/
def main (sdk : Sdk σ) (w : World σ) : Int × World σ :=
  let w := printf "Ren SDK - Windows Example\n" [] w
  let w := printf "=========================\n\n" [] w
  -- create the client
  let (client, w) := ren_sdk_client_new sdk "http://localhost:8001" w
  if client = 0 then
    let w := fprintf Stream.stderr "Ошибка создания клиента\n" [] w
    (1, w)
  else
  let w := printf "✓ Клиент создан\n" [] w
  -- log in
  let (result, w) := ren_sdk_login sdk client "user123" "password" 0 w
  if result.code ≠ 0 then
    let w := fprintf Stream.stderr "Ошибка входа: %s\n"
      [if result.message ≠ 0 then CStr.heap result.message else CStr.literal "Unknown"] w
    let w := if result.message ≠ 0 then ren_sdk_free_string sdk result.message w else w
    let w := ren_sdk_client_free sdk client w
    (1, w)
  else
  let w := printf "✓ Вход выполнен\n" [] w
  let w := if result.message ≠ 0 then ren_sdk_free_string sdk result.message w else w
  -- fetch the profile
  let (profile_json, w) := ren_sdk_get_me sdk client w
  let w :=
    if profile_json ≠ 0 then
      let w := printf "✓ Профиль получен:\n%s\n\n" [CStr.heap profile_json] w
      ren_sdk_free_string sdk profile_json w
    else
      fprintf Stream.stderr "Ошибка получения профиля\n" [] w
  -- fetch the chat list
  let (chats_json, w) := ren_sdk_get_chats sdk client w
  let w :=
    if chats_json ≠ 0 then
      let w := printf "✓ Чаты получены:\n%s\n\n" [CStr.heap chats_json] w
      ren_sdk_free_string sdk chats_json w
    else
      fprintf Stream.stderr "Ошибка получения чатов\n" [] w
  -- generate a key pair
  let (keypair_json, w) := ren_sdk_generate_keypair sdk w
  let w :=
    if keypair_json ≠ 0 then
      let w := printf "✓ Пара ключей сгенерирована:\n%s\n\n" [CStr.heap keypair_json] w
      ren_sdk_free_string sdk keypair_json w
    else w
  -- generate a salt
  let (salt, w) := ren_sdk_generate_salt sdk w
  let w :=
    if salt ≠ 0 then
      let w := printf "✓ Соль сгенерирована: %s\n" [CStr.heap salt] w
      ren_sdk_free_string sdk salt w
    else w
  -- release the client
  let w := ren_sdk_client_free sdk client w
  let w := printf "\n✓ Клиент освобождён\n" [] w
  (0, w)

/-- The exit status of a run of `main` that starts with the library in state `s`. -/
def exitStatus (sdk : Sdk σ) (s : σ) : Int :=
  (main sdk ⟨s, []⟩).1

/-- The events of a run of `main` that starts with the library in state `s`. -/
def run (sdk : Sdk σ) (s : σ) : List Event :=
  (main sdk ⟨s, []⟩).2.trace

/-! Vocabulary for the properties: SDK calls, string ownership, null use -/

/-- A library that answers every call with a fixed value, whatever it is asked
and whatever was called before.  It has no state of its own. -/
def scripted (client : Ptr) (result : RenResult) (profile chats keypair salt : Ptr) :
    Sdk Unit where
  client_new := fun _ s => (client, s)
  login := fun _ _ _ _ s => (result, s)
  get_me := fun _ s => (profile, s)
  get_chats := fun _ s => (chats, s)
  generate_keypair := fun s => (keypair, s)
  generate_salt := fun s => (salt, s)
  free_string := fun _ s => s
  client_free := fun _ s => s

/-- Whether an event is a call into the SDK (everything but a print). -/
def Event.isSdkCall : Event → Bool
  | Event.client_new _ _ => true
  | Event.login _ _ _ _ _ => true
  | Event.get_me _ _ => true
  | Event.get_chats _ _ => true
  | Event.generate_keypair _ => true
  | Event.generate_salt _ => true
  | Event.free_string _ => true
  | Event.client_free _ => true
  | Event.print _ _ _ => false

/-- The SDK calls of a trace, in the order they were made. -/
def sdkCalls (t : List Event) : List Event :=
  t.filter Event.isSdkCall

/-- Whether an event is an SDK call other than `ren_sdk_free_string`. -/
def Event.isOperation : Event → Bool
  | Event.client_new _ _ => true
  | Event.login _ _ _ _ _ => true
  | Event.get_me _ _ => true
  | Event.get_chats _ _ => true
  | Event.generate_keypair _ => true
  | Event.generate_salt _ => true
  | Event.free_string _ => false
  | Event.client_free _ => true
  | Event.print _ _ _ => false

/-- The SDK calls of a trace other than the string releases, in order. -/
def operations (t : List Event) : List Event :=
  t.filter Event.isOperation

/-- The non-null strings that an event hands over to the caller: the message
of a login result and the return value of the four string-returning
operations. -/
def Event.handsOver : Event → List Ptr
  | Event.client_new _ _ => []
  | Event.login _ _ _ _ r => if r.message = 0 then [] else [r.message]
  | Event.get_me _ p => if p = 0 then [] else [p]
  | Event.get_chats _ p => if p = 0 then [] else [p]
  | Event.generate_keypair p => if p = 0 then [] else [p]
  | Event.generate_salt p => if p = 0 then [] else [p]
  | Event.free_string _ => []
  | Event.client_free _ => []
  | Event.print _ _ _ => []

/-- The strings that an event passes to `ren_sdk_free_string`. -/
def Event.releases : Event → List Ptr
  | Event.client_new _ _ => []
  | Event.login _ _ _ _ _ => []
  | Event.get_me _ _ => []
  | Event.get_chats _ _ => []
  | Event.generate_keypair _ => []
  | Event.generate_salt _ => []
  | Event.free_string p => [p]
  | Event.client_free _ => []
  | Event.print _ _ _ => []

/-- All non-null strings handed over during a trace, in order. -/
def owned : List Event → List Ptr
  | [] => []
  | e :: t => e.handsOver ++ owned t

/-- All strings passed to `ren_sdk_free_string` during a trace, in order. -/
def released : List Event → List Ptr
  | [] => []
  | e :: t => e.releases ++ released t

/-- Whether a `%s` argument may be read when the strings in `live` are the ones
handed over and not yet released: a literal always, an SDK string only while
it is live. -/
def CStr.readable (live : List Ptr) : CStr → Bool
  | CStr.heap p => decide (p ∈ live)
  | CStr.literal _ => true

/-- One step of allocation tracking.  `live` holds the strings handed over and
not yet released (an address is listed once per hand-over, so that an address
the library hands out again after its release is a new string).  Releasing a
string that is not live (never handed over, or released already) fails, and so
does printing one; every other event adds the strings it hands over. -/
def track (live : List Ptr) (e : Event) : Option (List Ptr) :=
  match e with
  | Event.free_string p => if p ∈ live then some (live.erase p) else none
  | Event.print _ _ args => if args.all (CStr.readable live) then some live else none
  | Event.client_new _ _ => some (live ++ e.handsOver)
  | Event.login _ _ _ _ _ => some (live ++ e.handsOver)
  | Event.get_me _ _ => some (live ++ e.handsOver)
  | Event.get_chats _ _ => some (live ++ e.handsOver)
  | Event.generate_keypair _ => some (live ++ e.handsOver)
  | Event.generate_salt _ => some (live ++ e.handsOver)
  | Event.client_free _ => some (live ++ e.handsOver)

/-- Allocation tracking over a whole trace: `none` if some step fails, else the
strings still live at the end. -/
def audit : List Ptr → List Event → Option (List Ptr)
  | live, [] => some live
  | live, e :: t =>
    match track live e with
    | none => none
    | some live' => audit live' t

/-- Whether a `%s` argument is a null pointer. -/
def CStr.isNull : CStr → Bool
  | CStr.heap p => decide (p = 0)
  | CStr.literal _ => false

/-- Whether an event passes a null pointer where a checked value is due: a null
handle to an operation that takes the handle, a null string to
`ren_sdk_free_string`, or a null pointer to a `%s` conversion. -/
def Event.passesNull : Event → Bool
  | Event.client_new _ _ => false
  | Event.login client _ _ _ _ => decide (client = 0)
  | Event.get_me client _ => decide (client = 0)
  | Event.get_chats client _ => decide (client = 0)
  | Event.generate_keypair _ => false
  | Event.generate_salt _ => false
  | Event.free_string s => decide (s = 0)
  | Event.client_free client => decide (client = 0)
  | Event.print _ _ args => args.any CStr.isNull

/-- Whether an event is an SDK operation that reports failure: a null handle
from `ren_sdk_client_new`, a non-zero login code, or a null string from one of
the four string-returning operations. -/
def Event.failed : Event → Bool
  | Event.client_new _ ret => decide (ret = 0)
  | Event.login _ _ _ _ r => decide (r.code ≠ 0)
  | Event.get_me _ ret => decide (ret = 0)
  | Event.get_chats _ ret => decide (ret = 0)
  | Event.generate_keypair ret => decide (ret = 0)
  | Event.generate_salt ret => decide (ret = 0)
  | Event.free_string _ => false
  | Event.client_free _ => false
  | Event.print _ _ _ => false

/-- A property `P pre e post` holds at every position of a list, where `e` is
the element at the position, `post` what follows it, and `acc ++ pre` what
comes before it. -/
def splitsAll {α : Type} (P : List α → α → List α → Prop) : List α → List α → Prop
  | _, [] => True
  | acc, x :: xs => P acc x xs ∧ splitsAll P (acc ++ [x]) xs

/-- What the library answers to the first call of `main`,
`ren_sdk_client_new("http://localhost:8001")`, made with the library in its
initial state `s`: the handle. -/
def createdHandle (sdk : Sdk σ) (s : σ) : Ptr :=
  (sdk.client_new "http://localhost:8001" s).1

/-- What the library answers to `ren_sdk_login(client, "user123", "password", 0)`
when `client` is the handle it returned and it is in the state the creation
left it in: the result envelope.  (The prints in between do not touch the
library.) -/
def loginResult (sdk : Sdk σ) (s : σ) : RenResult :=
  (sdk.login (createdHandle sdk s) "user123" "password" 0
    (sdk.client_new "http://localhost:8001" s).2).1

/-- The three ways through `main`, as exit status and trace, when the library
answered the creation with `client` and (if it was asked) the login with
`result`: the client could not be created; the login failed; the login
succeeded.  `main_outcome_answers` proves that every run is one of them. -/
def Outcome (client : Ptr) (result : RenResult) (r : Int × World σ) : Prop :=
  (client = 0 ∧ r.1 = 1 ∧ r.2.trace =
    [Event.print Stream.stdout "Ren SDK - Windows Example\n" [],
     Event.print Stream.stdout "=========================\n\n" [],
     Event.client_new "http://localhost:8001" 0,
     Event.print Stream.stderr "Ошибка создания клиента\n" []]) ∨
  (client ≠ 0 ∧ result.code ≠ 0 ∧ r.1 = 1 ∧ r.2.trace =
    [Event.print Stream.stdout "Ren SDK - Windows Example\n" [],
     Event.print Stream.stdout "=========================\n\n" [],
     Event.client_new "http://localhost:8001" client,
     Event.print Stream.stdout "✓ Клиент создан\n" [],
     Event.login client "user123" "password" 0 result,
     Event.print Stream.stderr "Ошибка входа: %s\n"
       [if result.message ≠ 0 then CStr.heap result.message else CStr.literal "Unknown"]] ++
    (if result.message ≠ 0 then [Event.free_string result.message] else []) ++
    [Event.client_free client]) ∨
  (∃ profile chats keypair salt, client ≠ 0 ∧ result.code = 0 ∧ r.1 = 0 ∧
    r.2.trace =
    [Event.print Stream.stdout "Ren SDK - Windows Example\n" [],
     Event.print Stream.stdout "=========================\n\n" [],
     Event.client_new "http://localhost:8001" client,
     Event.print Stream.stdout "✓ Клиент создан\n" [],
     Event.login client "user123" "password" 0 result,
     Event.print Stream.stdout "✓ Вход выполнен\n" []] ++
    (if result.message ≠ 0 then [Event.free_string result.message] else []) ++
    [Event.get_me client profile] ++
    (if profile ≠ 0 then
      [Event.print Stream.stdout "✓ Профиль получен:\n%s\n\n" [CStr.heap profile],
       Event.free_string profile]
     else [Event.print Stream.stderr "Ошибка получения профиля\n" []]) ++
    [Event.get_chats client chats] ++
    (if chats ≠ 0 then
      [Event.print Stream.stdout "✓ Чаты получены:\n%s\n\n" [CStr.heap chats],
       Event.free_string chats]
     else [Event.print Stream.stderr "Ошибка получения чатов\n" []]) ++
    [Event.generate_keypair keypair] ++
    (if keypair ≠ 0 then
      [Event.print Stream.stdout "✓ Пара ключей сгенерирована:\n%s\n\n" [CStr.heap keypair],
       Event.free_string keypair]
     else []) ++
    [Event.generate_salt salt] ++
    (if salt ≠ 0 then
      [Event.print Stream.stdout "✓ Соль сгенерирована: %s\n" [CStr.heap salt],
       Event.free_string salt]
     else []) ++
    [Event.client_free client,
     Event.print Stream.stdout "\n✓ Клиент освобождён\n" []])

/-! Lemmas: what each call adds to the trace -/

theorem client_new_trace {sdk : Sdk σ} {url : String} {w w' : World σ} {c : Ptr}
    (h : ren_sdk_client_new sdk url w = (c, w')) :
    w'.trace = w.trace ++ [Event.client_new url c] := by
  simp only [ren_sdk_client_new, Prod.mk.injEq] at h
  obtain ⟨rfl, rfl⟩ := h
  rfl

theorem login_trace {sdk : Sdk σ} {c : Ptr} {u p : String} {f : Int} {w w' : World σ}
    {r : RenResult} (h : ren_sdk_login sdk c u p f w = (r, w')) :
    w'.trace = w.trace ++ [Event.login c u p f r] := by
  simp only [ren_sdk_login, Prod.mk.injEq] at h
  obtain ⟨rfl, rfl⟩ := h
  rfl

theorem get_me_trace {sdk : Sdk σ} {c : Ptr} {w w' : World σ} {r : Ptr}
    (h : ren_sdk_get_me sdk c w = (r, w')) :
    w'.trace = w.trace ++ [Event.get_me c r] := by
  simp only [ren_sdk_get_me, Prod.mk.injEq] at h
  obtain ⟨rfl, rfl⟩ := h
  rfl

theorem get_chats_trace {sdk : Sdk σ} {c : Ptr} {w w' : World σ} {r : Ptr}
    (h : ren_sdk_get_chats sdk c w = (r, w')) :
    w'.trace = w.trace ++ [Event.get_chats c r] := by
  simp only [ren_sdk_get_chats, Prod.mk.injEq] at h
  obtain ⟨rfl, rfl⟩ := h
  rfl

theorem generate_keypair_trace {sdk : Sdk σ} {w w' : World σ} {r : Ptr}
    (h : ren_sdk_generate_keypair sdk w = (r, w')) :
    w'.trace = w.trace ++ [Event.generate_keypair r] := by
  simp only [ren_sdk_generate_keypair, Prod.mk.injEq] at h
  obtain ⟨rfl, rfl⟩ := h
  rfl

theorem generate_salt_trace {sdk : Sdk σ} {w w' : World σ} {r : Ptr}
    (h : ren_sdk_generate_salt sdk w = (r, w')) :
    w'.trace = w.trace ++ [Event.generate_salt r] := by
  simp only [ren_sdk_generate_salt, Prod.mk.injEq] at h
  obtain ⟨rfl, rfl⟩ := h
  rfl

/-- The value `ren_sdk_client_new` hands to `main` is the answer of the library
in the state it was called in, and the library moves to its next state. -/
theorem client_new_answer {sdk : Sdk σ} {url : String} {w w' : World σ} {c : Ptr}
    (h : ren_sdk_client_new sdk url w = (c, w')) :
    c = (sdk.client_new url w.lib).1 ∧ w'.lib = (sdk.client_new url w.lib).2 := by
  simp only [ren_sdk_client_new, Prod.mk.injEq] at h
  obtain ⟨rfl, rfl⟩ := h
  exact ⟨rfl, rfl⟩

/-- The result `ren_sdk_login` hands to `main` is the answer of the library in
the state it was called in. -/
theorem login_answer {sdk : Sdk σ} {c : Ptr} {u p : String} {f : Int} {w w' : World σ}
    {r : RenResult} (h : ren_sdk_login sdk c u p f w = (r, w')) :
    r = (sdk.login c u p f w.lib).1 := by
  simp only [ren_sdk_login, Prod.mk.injEq] at h
  obtain ⟨rfl, rfl⟩ := h
  rfl

/-- Every run is one of the three ways through `main`, with the handle and the
login result being the answers of the library to the calls `main` makes. -/
theorem main_outcome_answers (sdk : Sdk σ) (s : σ) :
    Outcome (createdHandle sdk s) (loginResult sdk s) (main sdk ⟨s, []⟩) := by
  unfold loginResult createdHandle main
  lift_lets
  intro w1 w2
  have t2 : w2.trace = [Event.print Stream.stdout "Ren SDK - Windows Example\n" [],
      Event.print Stream.stdout "=========================\n\n" []] := rfl
  have l2 : w2.lib = s := rfl
  clear_value w2
  clear w1
  split
  rename_i client w3 h3
  have t3 := client_new_trace h3
  obtain ⟨a3, l3⟩ := client_new_answer h3
  rw [l2] at a3 l3
  rw [← a3, ← l3]
  clear h3 a3 l3 l2
  lift_lets
  intro w4 w5
  by_cases hc : client = 0
  · rw [if_pos hc]
    left
    refine ⟨hc, rfl, ?_⟩
    subst hc
    simp only [w4, fprintf, t3, t2]
    rfl
  rw [if_neg hc]
  have t5 : w5.trace = w3.trace ++ [Event.print Stream.stdout "✓ Клиент создан\n" []] := rfl
  have l5 : w5.lib = w3.lib := rfl
  clear_value w5
  clear w4
  split
  rename_i result w6 h6
  have t6 := login_trace h6
  have a6 := login_answer h6
  rw [l5] at a6
  rw [← a6]
  clear h6 a6 l5
  lift_lets
  intro w7 w8 w9 w10 w11
  have t9 : w9.trace = w6.trace ++ [Event.print Stream.stderr "Ошибка входа: %s\n"
        [if result.message ≠ 0 then CStr.heap result.message else CStr.literal "Unknown"]] ++
      (if result.message ≠ 0 then [Event.free_string result.message] else []) ++
      [Event.client_free client] := by
    simp only [w9, w8, w7, fprintf, ren_sdk_free_string, ren_sdk_client_free]
    split_ifs <;> simp
  have t11 : w11.trace = w6.trace ++ [Event.print Stream.stdout "✓ Вход выполнен\n" []] ++
      (if result.message ≠ 0 then [Event.free_string result.message] else []) := by
    simp only [w11, w10, fprintf, printf, ren_sdk_free_string]
    split_ifs <;> simp
  clear_value w9 w11
  clear w10 w8 w7
  by_cases hcode : result.code = 0
  swap
  · rw [if_pos hcode]
    right; left
    refine ⟨hc, hcode, rfl, ?_⟩
    simp only [t9, t6, t5, t3, t2]
    rfl
  rw [if_neg (not_not.mpr hcode)]
  split
  rename_i profile w12 h12
  have t12 := get_me_trace h12
  clear h12
  lift_lets
  intro w13 w14
  have t14 : w14.trace = w12.trace ++ (if profile ≠ 0 then
      [Event.print Stream.stdout "✓ Профиль получен:\n%s\n\n" [CStr.heap profile],
        Event.free_string profile]
      else [Event.print Stream.stderr "Ошибка получения профиля\n" []]) := by
    simp only [w14, w13, fprintf, printf, ren_sdk_free_string]
    split_ifs <;> simp
  clear_value w14
  clear w13
  split
  rename_i chats w15 h15
  have t15 := get_chats_trace h15
  clear h15
  lift_lets
  intro w16 w17
  have t17 : w17.trace = w15.trace ++ (if chats ≠ 0 then
      [Event.print Stream.stdout "✓ Чаты получены:\n%s\n\n" [CStr.heap chats],
        Event.free_string chats]
      else [Event.print Stream.stderr "Ошибка получения чатов\n" []]) := by
    simp only [w17, w16, fprintf, printf, ren_sdk_free_string]
    split_ifs <;> simp
  clear_value w17
  clear w16
  split
  rename_i keypair w18 h18
  have t18 := generate_keypair_trace h18
  clear h18
  lift_lets
  intro w19 w20
  have t20 : w20.trace = w18.trace ++ (if keypair ≠ 0 then
      [Event.print Stream.stdout "✓ Пара ключей сгенерирована:\n%s\n\n" [CStr.heap keypair],
        Event.free_string keypair]
      else []) := by
    simp only [w20, w19, fprintf, printf, ren_sdk_free_string]
    split_ifs <;> simp
  clear_value w20
  clear w19
  split
  rename_i salt w21 h21
  have t21 := generate_salt_trace h21
  clear h21
  lift_lets
  intro w22 w23 w24 w25
  have t25 : w25.trace = w21.trace ++ (if salt ≠ 0 then
      [Event.print Stream.stdout "✓ Соль сгенерирована: %s\n" [CStr.heap salt],
        Event.free_string salt]
      else []) ++ [Event.client_free client,
        Event.print Stream.stdout "\n✓ Клиент освобождён\n" []] := by
    simp only [w25, w24, w23, w22, fprintf, printf, ren_sdk_free_string, ren_sdk_client_free]
    split_ifs <;> simp
  clear_value w25
  clear w24 w23 w22
  right; right
  refine ⟨profile, chats, keypair, salt, hc, hcode, rfl, ?_⟩
  simp only [t25, t21, t20, t18, t17, t15, t14, t12, t11, t6, t5, t3, t2]
  simp only [List.append_assoc, List.cons_append, List.nil_append]

/-- Every run is one of the three ways through `main`, for some handle and some
login result. -/
theorem main_outcome (sdk : Sdk σ) (s : σ) :
    ∃ client result, Outcome client result (main sdk ⟨s, []⟩) :=
  ⟨_, _, main_outcome_answers sdk s⟩

theorem splitsAll_iff {α : Type} (P : List α → α → List α → Prop) (t : List α) :
    ∀ acc, splitsAll P acc t ↔ ∀ pre e post, t = pre ++ e :: post → P (acc ++ pre) e post := by
  induction t with
  | nil =>
    intro acc
    simp [splitsAll]
  | cons x xs ih =>
    intro acc
    simp only [splitsAll, ih]
    constructor
    · rintro ⟨h0, h1⟩ pre e post hsplit
      cases pre with
      | nil =>
        simp only [List.nil_append, List.cons.injEq] at hsplit
        obtain ⟨rfl, rfl⟩ := hsplit
        simpa using h0
      | cons y ys =>
        simp only [List.cons_append, List.cons.injEq] at hsplit
        obtain ⟨rfl, rfl⟩ := hsplit
        simpa using h1 ys e post rfl
    · intro h
      refine ⟨by simpa using h [] x xs rfl, ?_⟩
      intro pre e post hsplit
      subst hsplit
      simpa using h (x :: pre) e post rfl

/-- To prove a property at every position of a list, check it position by
position from the front. -/
theorem forall_split {α : Type} (P : List α → α → List α → Prop) (t : List α)
    (h : splitsAll P [] t) : ∀ pre e post, t = pre ++ e :: post → P pre e post := by
  intro pre e post hsplit
  simpa using (splitsAll_iff P t []).1 h pre e post hsplit

/-! Lemmas: the SDK calls of a run, path by path -/

/-- The SDK calls of a run, and its exit status, for each way through `main`. -/
theorem calls_outcome (sdk : Sdk σ) (s : σ) :
    (exitStatus sdk s = 1 ∧
      sdkCalls (run sdk s) = [Event.client_new "http://localhost:8001" 0]) ∨
    (∃ client result, client ≠ 0 ∧ result.code ≠ 0 ∧ exitStatus sdk s = 1 ∧
      sdkCalls (run sdk s) =
        [Event.client_new "http://localhost:8001" client,
         Event.login client "user123" "password" 0 result] ++
        (if result.message ≠ 0 then [Event.free_string result.message] else []) ++
        [Event.client_free client]) ∨
    (∃ client result profile chats keypair salt, client ≠ 0 ∧ result.code = 0 ∧
      exitStatus sdk s = 0 ∧
      sdkCalls (run sdk s) =
        [Event.client_new "http://localhost:8001" client,
         Event.login client "user123" "password" 0 result] ++
        (if result.message ≠ 0 then [Event.free_string result.message] else []) ++
        [Event.get_me client profile] ++
        (if profile ≠ 0 then [Event.free_string profile] else []) ++
        [Event.get_chats client chats] ++
        (if chats ≠ 0 then [Event.free_string chats] else []) ++
        [Event.generate_keypair keypair] ++
        (if keypair ≠ 0 then [Event.free_string keypair] else []) ++
        [Event.generate_salt salt] ++
        (if salt ≠ 0 then [Event.free_string salt] else []) ++
        [Event.client_free client]) := by
  unfold run exitStatus
  rcases main_outcome sdk s with ⟨c, r, ⟨-, he, ht⟩ | ⟨hc, hcode, he, ht⟩ |
    ⟨p, ch, k, sl, hc, hcode, he, ht⟩⟩
  · left
    rw [ht]
    exact ⟨he, rfl⟩
  · right; left
    refine ⟨c, r, hc, hcode, he, ?_⟩
    rw [ht]
    simp [sdkCalls, List.filter_append, apply_ite (List.filter Event.isSdkCall),
      Event.isSdkCall]
  · right; right
    refine ⟨c, r, p, ch, k, sl, hc, hcode, he, ?_⟩
    rw [ht]
    simp [sdkCalls, List.filter_append, apply_ite (List.filter Event.isSdkCall),
      Event.isSdkCall]

/-- The SDK calls of a run other than string releases, and its exit status, for
each way through `main`. -/
theorem operations_outcome (sdk : Sdk σ) (s : σ) :
    (exitStatus sdk s = 1 ∧
      operations (run sdk s) = [Event.client_new "http://localhost:8001" 0]) ∨
    (∃ client result, client ≠ 0 ∧ result.code ≠ 0 ∧ exitStatus sdk s = 1 ∧
      operations (run sdk s) =
        [Event.client_new "http://localhost:8001" client,
         Event.login client "user123" "password" 0 result,
         Event.client_free client]) ∨
    (∃ client result profile chats keypair salt, client ≠ 0 ∧ result.code = 0 ∧
      exitStatus sdk s = 0 ∧
      operations (run sdk s) =
        [Event.client_new "http://localhost:8001" client,
         Event.login client "user123" "password" 0 result,
         Event.get_me client profile,
         Event.get_chats client chats,
         Event.generate_keypair keypair,
         Event.generate_salt salt,
         Event.client_free client]) := by
  unfold run exitStatus
  rcases main_outcome sdk s with ⟨c, r, ⟨-, he, ht⟩ | ⟨hc, hcode, he, ht⟩ |
    ⟨p, ch, k, sl, hc, hcode, he, ht⟩⟩
  · left
    rw [ht]
    exact ⟨he, rfl⟩
  · right; left
    refine ⟨c, r, hc, hcode, he, ?_⟩
    rw [ht]
    simp [operations, List.filter_append, apply_ite (List.filter Event.isOperation),
      Event.isOperation]
  · right; right
    refine ⟨c, r, p, ch, k, sl, hc, hcode, he, ?_⟩
    rw [ht]
    simp [operations, List.filter_append, apply_ite (List.filter Event.isOperation),
      Event.isOperation]

/-- An SDK call is in the run exactly when it is among the SDK calls of the run. -/
theorem mem_sdkCalls {t : List Event} {e : Event} (hc : e.isSdkCall = true) :
    e ∈ sdkCalls t ↔ e ∈ t := by
  simp [sdkCalls, List.mem_filter, hc]

/-- An SDK call other than a release is in the run exactly when it is among the
operations of the run. -/
theorem mem_operations {t : List Event} {e : Event} (hc : e.isOperation = true) :
    e ∈ operations t ↔ e ∈ t := by
  simp [operations, List.mem_filter, hc]

/-- Membership in a list chosen by a test. -/
theorem mem_ite_iff {α : Type} (c : Prop) [Decidable c] (A B : List α) (e : α) :
    e ∈ (if c then A else B) ↔ (c ∧ e ∈ A) ∨ (¬ c ∧ e ∈ B) := by
  by_cases h : c <;> simp [h]

/-- Every SDK call of a trace is an event of the trace. -/
theorem mem_of_mem_sdkCalls {t : List Event} {e : Event} (h : e ∈ sdkCalls t) : e ∈ t :=
  (List.mem_filter.1 h).1

/-- If a list has exactly one element satisfying `q`, every way of splitting the
list at an element satisfying `q` is the split at that element. -/
theorem split_unique {α : Type} (q : α → Prop) (A : List α) (x : α) (B : List α)
    (hA : ∀ y ∈ A, ¬ q y) (hB : ∀ y ∈ B, ¬ q y) :
    ∀ pre e post, A ++ x :: B = pre ++ e :: post → q e → pre = A ∧ e = x ∧ post = B := by
  induction A with
  | nil =>
    intro pre e post hsplit hq
    cases pre with
    | nil =>
      simp only [List.nil_append, List.cons.injEq] at hsplit
      exact ⟨rfl, hsplit.1.symm, hsplit.2.symm⟩
    | cons y ys =>
      simp only [List.nil_append, List.cons_append, List.cons.injEq] at hsplit
      exact absurd hq (hB e (by rw [hsplit.2]; simp))
  | cons a A ih =>
    intro pre e post hsplit hq
    cases pre with
    | nil =>
      simp only [List.nil_append, List.cons_append, List.cons.injEq] at hsplit
      exact absurd hq (by rw [← hsplit.1]; exact hA a (by simp))
    | cons y ys =>
      simp only [List.cons_append, List.cons.injEq] at hsplit
      obtain ⟨h1, h2, h3⟩ := ih (fun z hz => hA z (by simp [hz])) ys e post hsplit.2 hq
      exact ⟨by rw [hsplit.1, h1], h2, h3⟩

/-- Allocation tracking over any run succeeds with nothing left live, and the
releases are exactly the strings handed over. -/
theorem audit_run (sdk : Sdk σ) (s : σ) :
    audit [] (run sdk s) = some [] ∧ released (run sdk s) = owned (run sdk s) := by
  unfold run
  rcases main_outcome sdk s with ⟨c, r, ⟨-, -, ht⟩ | ⟨-, -, -, ht⟩ |
    ⟨p, ch, k, sl, -, -, -, ht⟩⟩ <;> rw [ht] <;> clear ht
  · simp [audit, track, owned, released, Event.handsOver, CStr.readable, Event.releases]
  · by_cases h1 : r.message = 0 <;>
    simp [audit, track, owned, released, Event.handsOver, CStr.readable, Event.releases, h1]
  · by_cases h1 : r.message = 0 <;> by_cases h2 : p = 0 <;> by_cases h3 : ch = 0 <;>
    by_cases h4 : k = 0 <;> by_cases h5 : sl = 0 <;>
    simp only [h1, h2, h3, h4, h5, ne_eq, not_true_eq_false, not_false_eq_true, if_true,
      if_false, List.append_assoc, List.cons_append, List.nil_append] <;>
    simp [audit, track, owned, released, Event.handsOver, CStr.readable, Event.releases,
      h1, h2, h3, h4, h5]

/-- Allocation tracking tells misuse apart: a second release of a string fails,
a print of a released string fails, a string never released is left live, and
an address handed out again after its release is a new string. -/
theorem audit_detects_misuse :
    audit [] [Event.get_me 1 3, Event.free_string 3, Event.free_string 3] = none ∧
    audit [] [Event.get_me 1 3, Event.free_string 3,
      Event.print Stream.stdout "%s" [CStr.heap 3]] = none ∧
    audit [] [Event.get_me 1 3, Event.get_chats 1 4, Event.free_string 4] = some [3] ∧
    audit [] [Event.get_me 1 3, Event.free_string 3, Event.get_chats 1 3,
      Event.free_string 3] = some [] := by
  decide

/-! The claims -/

/-- C1: for every SDK, allocation tracking over the run of main succeeds and
ends with no live string, and the strings passed to ren_sdk_free_string are, in
order, exactly the non-null strings the SDK handed over.  So every non-null
string returned by the SDK is released exactly once, none is released twice, and
none is printed after its release. -/
theorem strings_released_exactly_once (sdk : Sdk σ) (s : σ) :
    audit [] (run sdk s) = some [] ∧ released (run sdk s) = owned (run sdk s) :=
  audit_run sdk s

/-- C2: in every run in which ren_sdk_client_new returned a non-null handle h,
ren_sdk_client_free h is among the SDK calls, and wherever ren_sdk_client_free
occurs in the sequence of SDK calls it is called with h, no ren_sdk_client_free
call comes before it, and no SDK call comes after it (so h is freed exactly
once, by the last SDK call of the run, and nothing receives h afterwards). -/
theorem handle_freed_once_and_last (sdk : Sdk σ) (s : σ) (url : String) (h : Ptr)
    (hnew : Event.client_new url h ∈ run sdk s) (hh : h ≠ 0) :
    Event.client_free h ∈ sdkCalls (run sdk s) ∧
    ∀ pre e post, sdkCalls (run sdk s) = pre ++ e :: post → ∀ c, e = Event.client_free c →
      c = h ∧ (∀ x ∈ pre, ∀ c', x ≠ Event.client_free c') ∧ post = [] := by
  have hnew' := (mem_sdkCalls (t := run sdk s) (e := Event.client_new url h) rfl).2 hnew
  rcases calls_outcome sdk s with ⟨-, hc⟩ | ⟨c, r, -, -, -, hc⟩ |
    ⟨c, r, p, ch, k, sl, -, -, -, hc⟩ <;> rw [hc] at hnew' ⊢ <;> clear hc
  · simp at hnew'
    exact absurd hnew'.2 hh
  · simp at hnew'
    obtain ⟨-, rfl⟩ := hnew'
    refine ⟨by simp, ?_⟩
    intro pre e post hsplit c' he
    have hA : ∀ y ∈ [Event.client_new "http://localhost:8001" h,
        Event.login h "user123" "password" 0 r] ++
        (if r.message ≠ 0 then [Event.free_string r.message] else []),
        ¬ (∃ c', y = Event.client_free c') := by
      rintro y hy ⟨c', rfl⟩
      simp at hy
    obtain ⟨h1, h2, h3⟩ := split_unique (fun e => ∃ c', e = Event.client_free c') _ _ []
      hA (by simp) pre e post hsplit ⟨c', he⟩
    subst h1 h3
    rw [he] at h2
    refine ⟨by simpa using h2, fun x hx d hd => hA x hx ⟨d, hd⟩, rfl⟩
  · simp at hnew'
    obtain ⟨-, rfl⟩ := hnew'
    refine ⟨by simp, ?_⟩
    intro pre e post hsplit c' he
    have hA : ∀ y ∈ [Event.client_new "http://localhost:8001" h,
        Event.login h "user123" "password" 0 r] ++
        (if r.message ≠ 0 then [Event.free_string r.message] else []) ++
        [Event.get_me h p] ++
        (if p ≠ 0 then [Event.free_string p] else []) ++
        [Event.get_chats h ch] ++
        (if ch ≠ 0 then [Event.free_string ch] else []) ++
        [Event.generate_keypair k] ++
        (if k ≠ 0 then [Event.free_string k] else []) ++
        [Event.generate_salt sl] ++
        (if sl ≠ 0 then [Event.free_string sl] else []),
        ¬ (∃ c', y = Event.client_free c') := by
      rintro y hy ⟨c', rfl⟩
      simp at hy
    obtain ⟨h1, h2, h3⟩ := split_unique (fun e => ∃ c', e = Event.client_free c') _ _ []
      hA (by simp) pre e post hsplit ⟨c', he⟩
    subst h1 h3
    rw [he] at h2
    refine ⟨by simpa using h2, fun x hx d hd => hA x hx ⟨d, hd⟩, rfl⟩

/-- The exit status as a function of what the library answers: 0 when it
answers the creation with a non-null handle and the login with code 0, and 1
otherwise.  The creation call is in every run with that handle as its return
value, and when the handle is non-null the login call is in the run, on that
handle, with that result. -/
theorem exit_status_of_answers (sdk : Sdk σ) (s : σ) :
    exitStatus sdk s =
      (if createdHandle sdk s ≠ 0 ∧ (loginResult sdk s).code = 0 then 0 else 1) ∧
    Event.client_new "http://localhost:8001" (createdHandle sdk s) ∈ run sdk s ∧
    (createdHandle sdk s ≠ 0 →
      Event.login (createdHandle sdk s) "user123" "password" 0 (loginResult sdk s) ∈
        run sdk s) := by
  unfold exitStatus run
  rcases main_outcome_answers sdk s with ⟨hc, he, ht⟩ | ⟨hc, hcode, he, ht⟩ |
    ⟨p, ch, k, sl, hc, hcode, he, ht⟩ <;> rw [he, ht]
  · refine ⟨by simp [hc], by simp [hc], fun h => absurd hc h⟩
  · refine ⟨by simp [hcode], by simp, fun _ => by simp⟩
  · refine ⟨by simp [hc, hcode], by simp, fun _ => by simp⟩

/-- C3: when ren_sdk_client_new returned a non-null handle h, ren_sdk_login
returned code 0 and ren_sdk_get_me returned a non-null string, the SDK calls of
main, string releases included, are in order
ren_sdk_client_new("http://localhost:8001"), then
ren_sdk_login(h, "user123", "password", 0), then the release of the login
message when it is non-null, then ren_sdk_get_me(h), then the release of the
profile, then further calls, and last of all ren_sdk_client_free(h); h and the
login result are what the SDK answered to these two calls; main returns 0; and
allocation tracking ends with no string left live. -/
theorem successful_session (sdk : Sdk σ) (s : σ) (url : String) (h : Ptr)
    (c : Ptr) (u p : String) (f : Int) (r : RenResult) (c' prof : Ptr)
    (hnew : Event.client_new url h ∈ run sdk s) (hh : h ≠ 0)
    (hlogin : Event.login c u p f r ∈ run sdk s) (hcode : r.code = 0)
    (hme : Event.get_me c' prof ∈ run sdk s) (hprof : prof ≠ 0) :
    (∃ rest, sdkCalls (run sdk s) =
      [Event.client_new "http://localhost:8001" h,
       Event.login h "user123" "password" 0 r] ++
      (if r.message ≠ 0 then [Event.free_string r.message] else []) ++
      [Event.get_me h prof, Event.free_string prof] ++ rest ++
      [Event.client_free h]) ∧
    (sdkCalls (run sdk s)).getLast? = some (Event.client_free h) ∧
    createdHandle sdk s = h ∧ loginResult sdk s = r ∧
    exitStatus sdk s = 0 ∧
    audit [] (run sdk s) = some [] := by
  have hnew' := (mem_sdkCalls (t := run sdk s) (e := Event.client_new url h) rfl).2 hnew
  have hlogin' := (mem_sdkCalls (t := run sdk s) (e := Event.login c u p f r) rfl).2 hlogin
  have hme' := (mem_sdkCalls (t := run sdk s) (e := Event.get_me c' prof) rfl).2 hme
  have hans := exit_status_of_answers sdk s
  have hcr := (mem_sdkCalls (t := run sdk s)
    (e := Event.client_new "http://localhost:8001" (createdHandle sdk s)) rfl).2 hans.2.1
  rcases calls_outcome sdk s with ⟨-, hc⟩ | ⟨c0, r0, -, hcode0, -, hc⟩ |
    ⟨c0, r0, p0, ch0, k0, sl0, hc0, -, he, hc⟩ <;> rw [hc] at hnew' hlogin' hme' hcr ⊢
  · simp at hnew'
    exact absurd hnew'.2 hh
  · simp at hlogin'
    obtain ⟨-, -, -, -, rfl⟩ := hlogin'
    exact absurd hcode hcode0
  · simp at hnew' hlogin' hme' hcr
    obtain ⟨-, rfl⟩ := hnew'
    obtain ⟨-, -, -, -, rfl⟩ := hlogin'
    obtain ⟨-, rfl⟩ := hme'
    have hlr := (mem_sdkCalls (t := run sdk s)
      (e := Event.login (createdHandle sdk s) "user123" "password" 0 (loginResult sdk s))
      rfl).2 (hans.2.2 (by rw [hcr]; exact hh))
    rw [hc] at hlr
    simp at hlr
    refine ⟨⟨[Event.get_chats h ch0] ++
        (if ch0 ≠ 0 then [Event.free_string ch0] else []) ++
        [Event.generate_keypair k0] ++
        (if k0 ≠ 0 then [Event.free_string k0] else []) ++
        [Event.generate_salt sl0] ++
        (if sl0 ≠ 0 then [Event.free_string sl0] else []), by simp [hprof]⟩,
      List.getLast?_concat _, hcr, hlr.2, he, (audit_run sdk s).1⟩

/-- The exit status is 0 exactly when the run has a ren_sdk_client_new call that
returned a non-null handle and a ren_sdk_login call that returned code 0. -/
theorem exit_zero_iff (sdk : Sdk σ) (s : σ) :
    exitStatus sdk s = 0 ↔
      (∃ url h, Event.client_new url h ∈ run sdk s ∧ h ≠ 0) ∧
      (∃ c u p f r, Event.login c u p f r ∈ run sdk s ∧ r.code = 0) := by
  have e1 : ∀ url h, Event.client_new url h ∈ run sdk s ↔
      Event.client_new url h ∈ operations (run sdk s) :=
    fun url h => (mem_operations (e := Event.client_new url h) rfl).symm
  have e2 : ∀ c u p f r, Event.login c u p f r ∈ run sdk s ↔
      Event.login c u p f r ∈ operations (run sdk s) :=
    fun c u p f r => (mem_operations (e := Event.login c u p f r) rfl).symm
  simp only [e1, e2]
  rcases operations_outcome sdk s with ⟨he, ho⟩ | ⟨c0, r0, hc0, hcode0, he, ho⟩ |
    ⟨c0, r0, p0, ch0, k0, sl0, hc0, hcode0, he, ho⟩ <;> rw [ho, he]
  · simp
  · constructor
    · intro h
      simp at h
    · rintro ⟨-, c, u, p, f, r, hmem, hr⟩
      simp at hmem
      obtain ⟨-, -, -, -, rfl⟩ := hmem
      exact absurd hr hcode0
  · constructor
    · intro _
      exact ⟨⟨"http://localhost:8001", c0, by simp, hc0⟩,
        ⟨c0, "user123", "password", 0, r0, by simp, hcode0⟩⟩
    · intro _
      rfl

/-- The exit status is 0 or 1. -/
theorem exit_zero_or_one (sdk : Sdk σ) (s : σ) :
    exitStatus sdk s = 0 ∨ exitStatus sdk s = 1 := by
  rcases operations_outcome sdk s with ⟨he, -⟩ | ⟨c0, r0, -, -, he, -⟩ |
    ⟨c0, r0, p0, ch0, k0, sl0, -, -, he, -⟩
  · exact Or.inr he
  · exact Or.inr he
  · exact Or.inl he

/-- C8: for every SDK, the exit status of main is 0 when the SDK answers
ren_sdk_client_new with a non-null handle and ren_sdk_login on that handle with
code 0, and 1 otherwise, so it does not depend on the login message or on what
ren_sdk_get_me, ren_sdk_get_chats, ren_sdk_generate_keypair or
ren_sdk_generate_salt return; main does call ren_sdk_client_new, and on a
non-null handle it does call ren_sdk_login.  In terms of the run: main returns
0 or 1; it returns 0 exactly when ren_sdk_client_new returned a non-null handle
and ren_sdk_login returned code 0; two runs, against any two SDKs, that agree on
these two facts have the same exit status; and when ren_sdk_client_new returned
null, main returns 1 and that call is the only SDK call of the run. -/
theorem exit_status_decided_by_handle_and_code (sdk : Sdk σ) (s : σ) :
    (exitStatus sdk s =
      (if createdHandle sdk s ≠ 0 ∧ (loginResult sdk s).code = 0 then 0 else 1)) ∧
    Event.client_new "http://localhost:8001" (createdHandle sdk s) ∈ run sdk s ∧
    (createdHandle sdk s ≠ 0 →
      Event.login (createdHandle sdk s) "user123" "password" 0 (loginResult sdk s) ∈
        run sdk s) ∧
    (exitStatus sdk s = 0 ∨ exitStatus sdk s = 1) ∧
    (exitStatus sdk s = 0 ↔
      (∃ url h, Event.client_new url h ∈ run sdk s ∧ h ≠ 0) ∧
      (∃ c u p f r, Event.login c u p f r ∈ run sdk s ∧ r.code = 0)) ∧
    (∀ (τ : Type) (sdk' : Sdk τ) (s' : τ),
      ((∃ url h, Event.client_new url h ∈ run sdk s ∧ h ≠ 0) ↔
        (∃ url h, Event.client_new url h ∈ run sdk' s' ∧ h ≠ 0)) →
      ((∃ c u p f r, Event.login c u p f r ∈ run sdk s ∧ r.code = 0) ↔
        (∃ c u p f r, Event.login c u p f r ∈ run sdk' s' ∧ r.code = 0)) →
      exitStatus sdk s = exitStatus sdk' s') ∧
    (∀ url, Event.client_new url 0 ∈ run sdk s →
      exitStatus sdk s = 1 ∧
      sdkCalls (run sdk s) = [Event.client_new "http://localhost:8001" 0]) := by
  refine ⟨(exit_status_of_answers sdk s).1, (exit_status_of_answers sdk s).2.1,
    (exit_status_of_answers sdk s).2.2, exit_zero_or_one sdk s, exit_zero_iff sdk s, ?_, ?_⟩
  · intro τ sdk' s' h1 h2
    have a := exit_zero_iff sdk s
    have b := exit_zero_iff sdk' s'
    rw [h1, h2, ← b] at a
    rcases exit_zero_or_one sdk s with h | h <;>
    rcases exit_zero_or_one sdk' s' with h' | h' <;> rw [h] at a ⊢ <;> rw [h'] at a ⊢
    · simp at a
    · simp at a
  · intro url hnew
    have hnew' := (mem_sdkCalls (t := run sdk s) (e := Event.client_new url 0) rfl).2 hnew
    rcases calls_outcome sdk s with ⟨he, hc⟩ | ⟨c0, r0, hc0, -, -, hc⟩ |
      ⟨c0, r0, p0, ch0, k0, sl0, hc0, -, -, hc⟩
    · exact ⟨he, hc⟩
    · rw [hc] at hnew'
      simp at hnew'
      exact absurd hnew'.2.symm hc0
    · rw [hc] at hnew'
      simp at hnew'
      exact absurd hnew'.2.symm hc0

/-- C9: in every run in which ren_sdk_client_new returned a non-null handle h
and ren_sdk_login returned code 0, whatever the four later operations return,
the SDK calls other than string releases are exactly ren_sdk_client_new,
ren_sdk_login, ren_sdk_get_me(h), ren_sdk_get_chats(h),
ren_sdk_generate_keypair(), ren_sdk_generate_salt() and ren_sdk_client_free(h),
once each and in that order; in particular ren_sdk_get_chats is called when
ren_sdk_get_me returned null. -/
theorem reads_and_utilities_once_each (sdk : Sdk σ) (s : σ) (url : String) (h : Ptr)
    (c : Ptr) (u p : String) (f : Int) (r : RenResult)
    (hnew : Event.client_new url h ∈ run sdk s) (hh : h ≠ 0)
    (hlogin : Event.login c u p f r ∈ run sdk s) (hcode : r.code = 0) :
    (∃ prof chats keypair salt, operations (run sdk s) =
      [Event.client_new "http://localhost:8001" h,
       Event.login h "user123" "password" 0 r,
       Event.get_me h prof,
       Event.get_chats h chats,
       Event.generate_keypair keypair,
       Event.generate_salt salt,
       Event.client_free h]) ∧
    (∀ c', Event.get_me c' 0 ∈ run sdk s → ∃ chats, Event.get_chats c' chats ∈ run sdk s) := by
  have hnew' := (mem_operations (t := run sdk s) (e := Event.client_new url h) rfl).2 hnew
  have hlogin' := (mem_operations (t := run sdk s) (e := Event.login c u p f r) rfl).2 hlogin
  have e1 : ∀ c' q, Event.get_me c' q ∈ run sdk s ↔
      Event.get_me c' q ∈ operations (run sdk s) :=
    fun c' q => (mem_operations (e := Event.get_me c' q) rfl).symm
  have e2 : ∀ c' q, Event.get_chats c' q ∈ run sdk s ↔
      Event.get_chats c' q ∈ operations (run sdk s) :=
    fun c' q => (mem_operations (e := Event.get_chats c' q) rfl).symm
  simp only [e1, e2]
  rcases operations_outcome sdk s with ⟨-, ho⟩ | ⟨c0, r0, -, hcode0, -, ho⟩ |
    ⟨c0, r0, p0, ch0, k0, sl0, -, -, -, ho⟩ <;> rw [ho] at hnew' hlogin' ⊢
  · simp at hnew'
    exact absurd hnew'.2 hh
  · simp at hlogin'
    obtain ⟨-, -, -, -, rfl⟩ := hlogin'
    exact absurd hcode hcode0
  · simp at hnew' hlogin'
    obtain ⟨-, rfl⟩ := hnew'
    obtain ⟨-, -, -, -, rfl⟩ := hlogin'
    refine ⟨⟨p0, ch0, k0, sl0, rfl⟩, ?_⟩
    intro c' hme
    simp at hme
    obtain ⟨rfl, -⟩ := hme
    exact ⟨ch0, by simp⟩

/-- C5: for every SDK, no event of the run passes a null pointer where a checked
value is due (no null handle to ren_sdk_login, ren_sdk_get_me, ren_sdk_get_chats
or ren_sdk_client_free, no null string to ren_sdk_free_string, no null SDK
string to a %s conversion), and when the login fails with a null message the
error line is printed with the literal "Unknown" as its %s argument. -/
theorem no_null_pointer_used (sdk : Sdk σ) (s : σ) :
    (∀ e ∈ run sdk s, e.passesNull = false) ∧
    (∀ c u p f r, Event.login c u p f r ∈ run sdk s → r.code ≠ 0 → r.message = 0 →
      Event.print Stream.stderr "Ошибка входа: %s\n" [CStr.literal "Unknown"] ∈ run sdk s) := by
  unfold run
  rcases main_outcome sdk s with ⟨c0, r0, ⟨-, -, ht⟩ | ⟨hc0, hcode0, -, ht⟩ |
    ⟨p0, ch0, k0, sl0, hc0, hcode0, -, ht⟩⟩ <;> rw [ht] <;> clear ht
  · simp [Event.passesNull, CStr.isNull]
  · constructor
    · simp [mem_ite_iff, or_imp, forall_and, Event.passesNull, CStr.isNull, hc0]
      split_ifs <;> simp [CStr.isNull, *]
    · intro c u p f r hmem hcode hmsg
      simp at hmem
      obtain ⟨-, -, -, -, rfl⟩ := hmem
      simp [hmsg]
  · constructor
    · simp [mem_ite_iff, or_imp, forall_and, Event.passesNull, CStr.isNull, hc0]
    · intro c u p f r hmem hcode hmsg
      simp [mem_ite_iff] at hmem
      obtain ⟨-, -, -, -, rfl⟩ := hmem
      exact absurd hcode0 hcode

/-- C6: whenever ren_sdk_login returned a non-zero code, the SDK calls of the run
are exactly ren_sdk_client_new, ren_sdk_login, ren_sdk_free_string(message) if
and only if the message is non-null, and ren_sdk_client_free on the handle the
login was made on (so none of ren_sdk_get_me, ren_sdk_get_chats,
ren_sdk_generate_keypair, ren_sdk_generate_salt is called), and main returns 1.
And in every run, wherever ren_sdk_get_me or ren_sdk_get_chats occurs among the
SDK calls, a ren_sdk_login on the same handle that returned code 0 occurs
before it. -/
theorem login_failure_path (sdk : Sdk σ) (s : σ) :
    (∀ c u p f r, Event.login c u p f r ∈ run sdk s → r.code ≠ 0 →
      sdkCalls (run sdk s) =
        [Event.client_new "http://localhost:8001" c,
         Event.login c "user123" "password" 0 r] ++
        (if r.message ≠ 0 then [Event.free_string r.message] else []) ++
        [Event.client_free c] ∧
      exitStatus sdk s = 1) ∧
    (∀ pre e post, sdkCalls (run sdk s) = pre ++ e :: post →
      ∀ c ret, e = Event.get_me c ret ∨ e = Event.get_chats c ret →
      ∃ r, r.code = 0 ∧ Event.login c "user123" "password" 0 r ∈ pre) := by
  constructor
  · intro c u p f r hlogin hcode
    have hlogin' := (mem_sdkCalls (t := run sdk s) (e := Event.login c u p f r) rfl).2 hlogin
    rcases calls_outcome sdk s with ⟨-, hc⟩ | ⟨c0, r0, -, -, he, hc⟩ |
      ⟨c0, r0, p0, ch0, k0, sl0, -, hcode0, -, hc⟩ <;> rw [hc] at hlogin' ⊢
    · simp at hlogin'
    · simp at hlogin'
      obtain ⟨rfl, -, -, -, rfl⟩ := hlogin'
      exact ⟨rfl, he⟩
    · simp at hlogin'
      obtain ⟨-, -, -, -, rfl⟩ := hlogin'
      exact absurd hcode0 hcode
  · intro pre e post hsplit c ret he
    have hmem : e ∈ sdkCalls (run sdk s) := by
      rw [hsplit]
      simp
    rcases calls_outcome sdk s with ⟨-, hc⟩ | ⟨c0, r0, -, -, -, hc⟩ |
      ⟨c0, r0, p0, ch0, k0, sl0, -, hcode0, -, hc⟩ <;> rw [hc] at hmem hsplit <;> clear hc
    · rcases he with rfl | rfl <;> simp at hmem
    · rcases he with rfl | rfl <;> simp at hmem
    · rcases he with rfl | rfl
      · have hA : ∀ y ∈ [Event.client_new "http://localhost:8001" c0,
            Event.login c0 "user123" "password" 0 r0] ++
            (if r0.message ≠ 0 then [Event.free_string r0.message] else []),
            ¬ (∃ a b, y = Event.get_me a b) := by
          rintro y hy ⟨a, b, rfl⟩
          simp at hy
        have hB : ∀ y ∈ (if p0 ≠ 0 then [Event.free_string p0] else []) ++
            [Event.get_chats c0 ch0] ++
            (if ch0 ≠ 0 then [Event.free_string ch0] else []) ++
            [Event.generate_keypair k0] ++
            (if k0 ≠ 0 then [Event.free_string k0] else []) ++
            [Event.generate_salt sl0] ++
            (if sl0 ≠ 0 then [Event.free_string sl0] else []) ++
            [Event.client_free c0],
            ¬ (∃ a b, y = Event.get_me a b) := by
          rintro y hy ⟨a, b, rfl⟩
          simp at hy
        obtain ⟨h1, h2, -⟩ := split_unique (fun e => ∃ a b, e = Event.get_me a b) _
          (Event.get_me c0 p0) _ hA hB pre (Event.get_me c ret) post
          (by rw [← hsplit]; simp) ⟨c, ret, rfl⟩
        simp at h2
        obtain ⟨rfl, -⟩ := h2
        exact ⟨r0, hcode0, by rw [h1]; simp⟩
      · have hA : ∀ y ∈ [Event.client_new "http://localhost:8001" c0,
            Event.login c0 "user123" "password" 0 r0] ++
            (if r0.message ≠ 0 then [Event.free_string r0.message] else []) ++
            [Event.get_me c0 p0] ++
            (if p0 ≠ 0 then [Event.free_string p0] else []),
            ¬ (∃ a b, y = Event.get_chats a b) := by
          rintro y hy ⟨a, b, rfl⟩
          simp at hy
        have hB : ∀ y ∈ (if ch0 ≠ 0 then [Event.free_string ch0] else []) ++
            [Event.generate_keypair k0] ++
            (if k0 ≠ 0 then [Event.free_string k0] else []) ++
            [Event.generate_salt sl0] ++
            (if sl0 ≠ 0 then [Event.free_string sl0] else []) ++
            [Event.client_free c0],
            ¬ (∃ a b, y = Event.get_chats a b) := by
          rintro y hy ⟨a, b, rfl⟩
          simp at hy
        obtain ⟨h1, h2, -⟩ := split_unique (fun e => ∃ a b, e = Event.get_chats a b) _
          (Event.get_chats c0 ch0) _ hA hB pre (Event.get_chats c ret) post
          (by rw [← hsplit]; simp) ⟨c, ret, rfl⟩
        simp at h2
        obtain ⟨rfl, -⟩ := h2
        exact ⟨r0, hcode0, by rw [h1]; simp⟩

/-- C7: wherever a ren_sdk_login that returned a non-null message occurs among
the SDK calls of a run, the SDK call right after it is ren_sdk_free_string on
that message; when the code is non-zero the calls after the login are that
release and then ren_sdk_client_free on the handle, and when the code is zero
they are that release, then ren_sdk_get_me on the handle, then the rest. -/
theorem message_released_right_after_login (sdk : Sdk σ) (s : σ)
    (pre post : List Event) (c : Ptr) (u p : String) (f : Int) (r : RenResult)
    (hsplit : sdkCalls (run sdk s) = pre ++ Event.login c u p f r :: post)
    (hmsg : r.message ≠ 0) :
    post.head? = some (Event.free_string r.message) ∧
    (r.code ≠ 0 → post = [Event.free_string r.message, Event.client_free c]) ∧
    (r.code = 0 → ∃ prof rest,
      post = Event.free_string r.message :: Event.get_me c prof :: rest) := by
  have hmem : Event.login c u p f r ∈ sdkCalls (run sdk s) := by
    rw [hsplit]
    simp
  rcases calls_outcome sdk s with ⟨-, hc⟩ | ⟨c0, r0, -, hcode0, -, hc⟩ |
    ⟨c0, r0, p0, ch0, k0, sl0, -, hcode0, -, hc⟩ <;> rw [hc] at hmem hsplit <;> clear hc
  · simp at hmem
  · have hB : ∀ y ∈ (if r0.message ≠ 0 then [Event.free_string r0.message] else []) ++
        [Event.client_free c0], ¬ (∃ a b d g k, y = Event.login a b d g k) := by
      rintro y hy ⟨a, b, d, g, k, rfl⟩
      simp at hy
    obtain ⟨-, h2, h3⟩ := split_unique (fun e => ∃ a b d g k, e = Event.login a b d g k)
      [Event.client_new "http://localhost:8001" c0]
      (Event.login c0 "user123" "password" 0 r0) _ (by simp) hB pre
      (Event.login c u p f r) post (by rw [← hsplit]; simp) ⟨c, u, p, f, r, rfl⟩
    simp at h2
    obtain ⟨rfl, -, -, -, rfl⟩ := h2
    subst h3
    simp [hmsg, hcode0]
  · have hB : ∀ y ∈ (if r0.message ≠ 0 then [Event.free_string r0.message] else []) ++
        [Event.get_me c0 p0] ++
        (if p0 ≠ 0 then [Event.free_string p0] else []) ++
        [Event.get_chats c0 ch0] ++
        (if ch0 ≠ 0 then [Event.free_string ch0] else []) ++
        [Event.generate_keypair k0] ++
        (if k0 ≠ 0 then [Event.free_string k0] else []) ++
        [Event.generate_salt sl0] ++
        (if sl0 ≠ 0 then [Event.free_string sl0] else []) ++
        [Event.client_free c0], ¬ (∃ a b d g k, y = Event.login a b d g k) := by
      rintro y hy ⟨a, b, d, g, k, rfl⟩
      simp at hy
    obtain ⟨-, h2, h3⟩ := split_unique (fun e => ∃ a b d g k, e = Event.login a b d g k)
      [Event.client_new "http://localhost:8001" c0]
      (Event.login c0 "user123" "password" 0 r0) _ (by simp) hB pre
      (Event.login c u p f r) post (by rw [← hsplit]; simp) ⟨c, u, p, f, r, rfl⟩
    simp at h2
    obtain ⟨rfl, -, -, -, rfl⟩ := h2
    subst h3
    simp [hmsg, hcode0]

/-- C4 as stated fails: against the SDK that returns handle 1, login code 0 with
message 2, profile 3, chats 4, key pair 5 and salt 6, no operation of the run
fails, yet the release of the message (the third SDK call) has no
ren_sdk_generate_salt call before it. -/
theorem releases_not_all_after_generate_salt :
    (∀ e ∈ run (scripted 1 ⟨0, 2⟩ 3 4 5 6) (), e.failed = false) ∧
    ¬ (∀ pre q post,
        sdkCalls (run (scripted 1 ⟨0, 2⟩ 3 4 5 6) ()) = pre ++ Event.free_string q :: post →
        ∃ ret, Event.generate_salt ret ∈ pre) := by
  constructor
  · decide
  · intro h
    have h' := h
      [Event.client_new "http://localhost:8001" 1,
       Event.login 1 "user123" "password" 0 ⟨0, 2⟩] 2
      [Event.get_me 1 3, Event.free_string 3, Event.get_chats 1 4, Event.free_string 4,
       Event.generate_keypair 5, Event.free_string 5, Event.generate_salt 6,
       Event.free_string 6, Event.client_free 1] (by decide)
    simp at h'

/-- C4, amended: in a run in which no SDK operation fails, the SDK calls are, in
order, ren_sdk_client_new, ren_sdk_login, the release of the login message when
it is non-null, ren_sdk_get_me, the release of the profile, ren_sdk_get_chats,
the release of the chats, ren_sdk_generate_keypair, the release of the key pair,
ren_sdk_generate_salt, the release of the salt, and ren_sdk_client_free; so each
string is released by the SDK call right after the one that returned it, and
every ren_sdk_free_string call comes after the login and before
ren_sdk_client_free. -/
theorem releases_follow_their_operation (sdk : Sdk σ) (s : σ)
    (hok : ∀ e ∈ run sdk s, e.failed = false) :
    ∃ h r prof chats keypair salt,
      sdkCalls (run sdk s) =
        [Event.client_new "http://localhost:8001" h,
         Event.login h "user123" "password" 0 r] ++
        (if r.message ≠ 0 then [Event.free_string r.message] else []) ++
        [Event.get_me h prof, Event.free_string prof,
         Event.get_chats h chats, Event.free_string chats,
         Event.generate_keypair keypair, Event.free_string keypair,
         Event.generate_salt salt, Event.free_string salt,
         Event.client_free h] ∧
      ∀ pre q post, sdkCalls (run sdk s) = pre ++ Event.free_string q :: post →
        Event.login h "user123" "password" 0 r ∈ pre ∧ Event.client_free h ∈ post := by
  have hok' : ∀ e ∈ sdkCalls (run sdk s), e.failed = false :=
    fun e he => hok e (mem_of_mem_sdkCalls he)
  rcases calls_outcome sdk s with ⟨-, hc⟩ | ⟨c0, r0, -, hcode0, -, hc⟩ |
    ⟨c0, r0, p0, ch0, k0, sl0, -, hcode0, -, hc⟩ <;> rw [hc] at hok' ⊢ <;> clear hc
  · simp [Event.failed] at hok'
  · have := hok' (Event.login c0 "user123" "password" 0 r0) (by simp)
    simp [Event.failed, hcode0] at this
  · have h2 : p0 ≠ 0 := by
      have := hok' (Event.get_me c0 p0) (by simp)
      simpa [Event.failed] using this
    have h3 : ch0 ≠ 0 := by
      have := hok' (Event.get_chats c0 ch0) (by simp)
      simpa [Event.failed] using this
    have h4 : k0 ≠ 0 := by
      have := hok' (Event.generate_keypair k0) (by simp)
      simpa [Event.failed] using this
    have h5 : sl0 ≠ 0 := by
      have := hok' (Event.generate_salt sl0) (by simp)
      simpa [Event.failed] using this
    refine ⟨c0, r0, p0, ch0, k0, sl0, by simp [h2, h3, h4, h5], ?_⟩
    by_cases h1 : r0.message = 0 <;>
    simp only [h1, h2, h3, h4, h5, ne_eq, not_true_eq_false, not_false_eq_true, if_true,
      if_false, List.append_assoc, List.cons_append, List.nil_append] <;>
    intro pre q post hsplit <;>
    refine forall_split (fun pre e post => ∀ q, e = Event.free_string q →
      Event.login c0 "user123" "password" 0 r0 ∈ pre ∧ Event.client_free c0 ∈ post)
      _ ?_ pre _ post hsplit q rfl <;>
    simp only [splitsAll, List.nil_append, List.cons_append] <;> simp

/-! The claims at concrete SDKs -/

/-- C2 at two SDKs: one whose login fails (code -1, no message) on handle 7, and
one where every operation succeeds on handle 1. -/
theorem handle_freed_once_and_last_witness :
    (Event.client_new "http://localhost:8001" 7 ∈ run (scripted 7 ⟨-1, 0⟩ 0 0 0 0) () ∧
      (7 : Ptr) ≠ 0 ∧
      Event.client_free 7 ∈ sdkCalls (run (scripted 7 ⟨-1, 0⟩ 0 0 0 0) ())) ∧
    (Event.client_new "http://localhost:8001" 1 ∈ run (scripted 1 ⟨0, 2⟩ 3 4 5 6) () ∧
      (1 : Ptr) ≠ 0 ∧
      Event.client_free 1 ∈ sdkCalls (run (scripted 1 ⟨0, 2⟩ 3 4 5 6) ())) :=
  ⟨⟨by decide, by decide,
      (handle_freed_once_and_last (scripted 7 ⟨-1, 0⟩ 0 0 0 0) () "http://localhost:8001" 7
        (by decide) (by decide)).1⟩,
    ⟨by decide, by decide,
      (handle_freed_once_and_last (scripted 1 ⟨0, 2⟩ 3 4 5 6) () "http://localhost:8001" 1
        (by decide) (by decide)).1⟩⟩

/-- C3 at the SDK that returns handle 1, login code 0 with message 2, profile 3,
chats 4, key pair 5 and salt 6. -/
theorem successful_session_witness :
    Event.client_new "http://localhost:8001" 1 ∈ run (scripted 1 ⟨0, 2⟩ 3 4 5 6) () ∧
    (1 : Ptr) ≠ 0 ∧
    Event.login 1 "user123" "password" 0 ⟨0, 2⟩ ∈ run (scripted 1 ⟨0, 2⟩ 3 4 5 6) () ∧
    (⟨0, 2⟩ : RenResult).code = 0 ∧
    Event.get_me 1 3 ∈ run (scripted 1 ⟨0, 2⟩ 3 4 5 6) () ∧
    (3 : Ptr) ≠ 0 ∧
    (sdkCalls (run (scripted 1 ⟨0, 2⟩ 3 4 5 6) ())).getLast? = some (Event.client_free 1) ∧
    exitStatus (scripted 1 ⟨0, 2⟩ 3 4 5 6) () = 0 ∧
    audit [] (run (scripted 1 ⟨0, 2⟩ 3 4 5 6) ()) = some [] :=
  ⟨by decide, by decide, by decide, rfl, by decide, by decide,
    (successful_session (scripted 1 ⟨0, 2⟩ 3 4 5 6) () "http://localhost:8001" 1
      1 "user123" "password" 0 ⟨0, 2⟩ 1 3
      (by decide) (by decide) (by decide) rfl (by decide) (by decide)).2.1,
    (successful_session (scripted 1 ⟨0, 2⟩ 3 4 5 6) () "http://localhost:8001" 1
      1 "user123" "password" 0 ⟨0, 2⟩ 1 3
      (by decide) (by decide) (by decide) rfl (by decide) (by decide)).2.2.2.2.1,
    (successful_session (scripted 1 ⟨0, 2⟩ 3 4 5 6) () "http://localhost:8001" 1
      1 "user123" "password" 0 ⟨0, 2⟩ 1 3
      (by decide) (by decide) (by decide) rfl (by decide) (by decide)).2.2.2.2.2⟩

/-- C4, amended, at the SDK that returns handle 1, login code 0 with message 2,
profile 3, chats 4, key pair 5 and salt 6. -/
theorem releases_follow_their_operation_witness :
    (∀ e ∈ run (scripted 1 ⟨0, 2⟩ 3 4 5 6) (), e.failed = false) ∧
    ∃ h r prof chats keypair salt,
      sdkCalls (run (scripted 1 ⟨0, 2⟩ 3 4 5 6) ()) =
        [Event.client_new "http://localhost:8001" h,
         Event.login h "user123" "password" 0 r] ++
        (if r.message ≠ 0 then [Event.free_string r.message] else []) ++
        [Event.get_me h prof, Event.free_string prof,
         Event.get_chats h chats, Event.free_string chats,
         Event.generate_keypair keypair, Event.free_string keypair,
         Event.generate_salt salt, Event.free_string salt,
         Event.client_free h] ∧
      ∀ pre q post,
        sdkCalls (run (scripted 1 ⟨0, 2⟩ 3 4 5 6) ()) = pre ++ Event.free_string q :: post →
        Event.login h "user123" "password" 0 r ∈ pre ∧ Event.client_free h ∈ post :=
  ⟨by decide, releases_follow_their_operation (scripted 1 ⟨0, 2⟩ 3 4 5 6) () (by decide)⟩

/-- C5 at the SDK whose login fails with code 5 and a null message. -/
theorem no_null_pointer_used_witness :
    Event.login 1 "user123" "password" 0 ⟨5, 0⟩ ∈ run (scripted 1 ⟨5, 0⟩ 0 0 0 0) () ∧
    (⟨5, 0⟩ : RenResult).code ≠ 0 ∧ (⟨5, 0⟩ : RenResult).message = 0 ∧
    Event.print Stream.stderr "Ошибка входа: %s\n" [CStr.literal "Unknown"] ∈
      run (scripted 1 ⟨5, 0⟩ 0 0 0 0) () :=
  ⟨by decide, by decide, rfl,
    (no_null_pointer_used (scripted 1 ⟨5, 0⟩ 0 0 0 0) ()).2 1 "user123" "password" 0 ⟨5, 0⟩
      (by decide) (by decide) rfl⟩

/-- C6 at the SDK whose login fails with code -3 and message 9, and, for the
second part, at the get_me call of a run where the login succeeds. -/
theorem login_failure_path_witness :
    (Event.login 1 "user123" "password" 0 ⟨-3, 9⟩ ∈ run (scripted 1 ⟨-3, 9⟩ 3 4 5 6) () ∧
      (⟨-3, 9⟩ : RenResult).code ≠ 0 ∧
      sdkCalls (run (scripted 1 ⟨-3, 9⟩ 3 4 5 6) ()) =
        [Event.client_new "http://localhost:8001" 1,
         Event.login 1 "user123" "password" 0 ⟨-3, 9⟩] ++
        (if (⟨-3, 9⟩ : RenResult).message ≠ 0
          then [Event.free_string (⟨-3, 9⟩ : RenResult).message] else []) ++
        [Event.client_free 1] ∧
      exitStatus (scripted 1 ⟨-3, 9⟩ 3 4 5 6) () = 1) ∧
    (sdkCalls (run (scripted 1 ⟨0, 0⟩ 3 0 5 6) ()) =
        [Event.client_new "http://localhost:8001" 1,
         Event.login 1 "user123" "password" 0 ⟨0, 0⟩] ++
        Event.get_me 1 3 ::
        [Event.free_string 3, Event.get_chats 1 0, Event.generate_keypair 5,
         Event.free_string 5, Event.generate_salt 6, Event.free_string 6,
         Event.client_free 1] ∧
      ∃ r, r.code = 0 ∧ Event.login 1 "user123" "password" 0 r ∈
        [Event.client_new "http://localhost:8001" 1,
         Event.login 1 "user123" "password" 0 ⟨0, 0⟩]) :=
  ⟨⟨by decide, by decide,
      (login_failure_path (scripted 1 ⟨-3, 9⟩ 3 4 5 6) ()).1 1 "user123" "password" 0 ⟨-3, 9⟩
        (by decide) (by decide)⟩,
    ⟨by decide,
      (login_failure_path (scripted 1 ⟨0, 0⟩ 3 0 5 6) ()).2
        [Event.client_new "http://localhost:8001" 1,
         Event.login 1 "user123" "password" 0 ⟨0, 0⟩]
        (Event.get_me 1 3)
        [Event.free_string 3, Event.get_chats 1 0, Event.generate_keypair 5,
         Event.free_string 5, Event.generate_salt 6, Event.free_string 6,
         Event.client_free 1]
        (by decide) 1 3 (Or.inl rfl)⟩⟩

/-- C7 on both branches: a failing login (code 2) and a successful one, each
with message 9. -/
theorem message_released_right_after_login_witness :
    (sdkCalls (run (scripted 1 ⟨2, 9⟩ 3 4 5 6) ()) =
        [Event.client_new "http://localhost:8001" 1] ++
        Event.login 1 "user123" "password" 0 ⟨2, 9⟩ ::
        [Event.free_string 9, Event.client_free 1] ∧
      (⟨2, 9⟩ : RenResult).message ≠ 0 ∧
      ((⟨2, 9⟩ : RenResult).code ≠ 0 →
        [Event.free_string 9, Event.client_free 1] =
          [Event.free_string (⟨2, 9⟩ : RenResult).message, Event.client_free 1])) ∧
    (sdkCalls (run (scripted 1 ⟨0, 9⟩ 0 0 0 0) ()) =
        [Event.client_new "http://localhost:8001" 1] ++
        Event.login 1 "user123" "password" 0 ⟨0, 9⟩ ::
        [Event.free_string 9, Event.get_me 1 0, Event.get_chats 1 0,
         Event.generate_keypair 0, Event.generate_salt 0, Event.client_free 1] ∧
      (⟨0, 9⟩ : RenResult).message ≠ 0 ∧
      ((⟨0, 9⟩ : RenResult).code = 0 → ∃ prof rest,
        [Event.free_string 9, Event.get_me 1 0, Event.get_chats 1 0,
         Event.generate_keypair 0, Event.generate_salt 0, Event.client_free 1] =
          Event.free_string (⟨0, 9⟩ : RenResult).message :: Event.get_me 1 prof :: rest)) :=
  ⟨⟨by decide, by decide,
      (message_released_right_after_login (scripted 1 ⟨2, 9⟩ 3 4 5 6) ()
        [Event.client_new "http://localhost:8001" 1]
        [Event.free_string 9, Event.client_free 1] 1
        "user123" "password" 0 ⟨2, 9⟩ (by decide) (by decide)).2.1⟩,
    ⟨by decide, by decide,
      (message_released_right_after_login (scripted 1 ⟨0, 9⟩ 0 0 0 0) ()
        [Event.client_new "http://localhost:8001" 1]
        [Event.free_string 9, Event.get_me 1 0, Event.get_chats 1 0,
         Event.generate_keypair 0, Event.generate_salt 0, Event.client_free 1] 1
        "user123" "password" 0 ⟨0, 9⟩ (by decide) (by decide)).2.2⟩⟩

/-- C8 at three SDKs: one whose creation and login succeed (handle 1, code 0),
where main logs in and returns 0 although ren_sdk_get_me and
ren_sdk_generate_salt return null; one whose login fails with code 7, where
main returns 1; and one that cannot create a client, where main returns 1
after that single call. -/
theorem exit_status_decided_by_handle_and_code_witness :
    (createdHandle (scripted 1 ⟨0, 2⟩ 0 4 5 0) () ≠ 0 ∧
      (loginResult (scripted 1 ⟨0, 2⟩ 0 4 5 0) ()).code = 0 ∧
      Event.client_new "http://localhost:8001" 1 ∈ run (scripted 1 ⟨0, 2⟩ 0 4 5 0) () ∧
      Event.login 1 "user123" "password" 0 ⟨0, 2⟩ ∈ run (scripted 1 ⟨0, 2⟩ 0 4 5 0) () ∧
      exitStatus (scripted 1 ⟨0, 2⟩ 0 4 5 0) () = 0) ∧
    (createdHandle (scripted 1 ⟨7, 2⟩ 3 4 5 6) () ≠ 0 ∧
      (loginResult (scripted 1 ⟨7, 2⟩ 3 4 5 6) ()).code ≠ 0 ∧
      exitStatus (scripted 1 ⟨7, 2⟩ 3 4 5 6) () = 1) ∧
    (Event.client_new "http://localhost:8001" 0 ∈ run (scripted 0 ⟨0, 2⟩ 3 4 5 6) () ∧
      exitStatus (scripted 0 ⟨0, 2⟩ 3 4 5 6) () = 1 ∧
      sdkCalls (run (scripted 0 ⟨0, 2⟩ 3 4 5 6) ()) =
        [Event.client_new "http://localhost:8001" 0]) :=
  ⟨⟨by decide, by decide,
      (exit_status_decided_by_handle_and_code (scripted 1 ⟨0, 2⟩ 0 4 5 0) ()).2.1,
      (exit_status_decided_by_handle_and_code (scripted 1 ⟨0, 2⟩ 0 4 5 0) ()).2.2.1
        (by decide),
      (exit_status_decided_by_handle_and_code (scripted 1 ⟨0, 2⟩ 0 4 5 0) ()).2.2.2.2.1.2
        ⟨⟨"http://localhost:8001", 1, by decide, by decide⟩,
          ⟨1, "user123", "password", 0, ⟨0, 2⟩, by decide, rfl⟩⟩⟩,
    ⟨by decide, by decide,
      (exit_status_decided_by_handle_and_code (scripted 1 ⟨7, 2⟩ 3 4 5 6) ()).1.trans
        (by decide)⟩,
    ⟨by decide,
      (exit_status_decided_by_handle_and_code (scripted 0 ⟨0, 2⟩ 3 4 5 6) ()).2.2.2.2.2.2
        "http://localhost:8001" (by decide)⟩⟩

/-- C9 at the SDK whose login succeeds on handle 1 and whose ren_sdk_get_me and
ren_sdk_generate_keypair return null. -/
theorem reads_and_utilities_once_each_witness :
    Event.client_new "http://localhost:8001" 1 ∈ run (scripted 1 ⟨0, 0⟩ 0 4 0 6) () ∧
    (1 : Ptr) ≠ 0 ∧
    Event.login 1 "user123" "password" 0 ⟨0, 0⟩ ∈ run (scripted 1 ⟨0, 0⟩ 0 4 0 6) () ∧
    (⟨0, 0⟩ : RenResult).code = 0 ∧
    Event.get_me 1 0 ∈ run (scripted 1 ⟨0, 0⟩ 0 4 0 6) () ∧
    ∃ chats, Event.get_chats 1 chats ∈ run (scripted 1 ⟨0, 0⟩ 0 4 0 6) () :=
  ⟨by decide, by decide, by decide, rfl, by decide,
    (reads_and_utilities_once_each (scripted 1 ⟨0, 0⟩ 0 4 0 6) () "http://localhost:8001" 1
      1 "user123" "password" 0 ⟨0, 0⟩ (by decide) (by decide) (by decide) rfl).2 1
      (by decide)⟩

end RenSdk
